import Mathlib

/-!
A verification development for the request/retry pipeline of the memU Go SDK.

The definitions below are a shallow embedding of the SDK source:
* `models.go` — retry configuration and the three retry-policy implementations;
* `errors.go` — the typed error constructors;
* `client.go` — response-body decoding, `raiseForStatus`, and the
  retry loop of `Client.request`.

Conventions of the embedding:
* Durations (`time.Duration`) are `Int` nanoseconds, as in Go.
* Go `int` / `time.Duration` arithmetic that can overflow is modelled with
  explicit 64-bit wrapping in two-complement style (`wrap64`).
* A Go `error` value is `Option String` (`none` = nil).
* A decoded body (a Go `map[string]interface` value, possibly nil) is
  `Option (List (String × JSON))`; JSON objects are modelled as field lists
  in textual order (Go maps are unordered, but no claim inspects order
  beyond concrete inputs whose order matches).
* `strconv.ParseFloat` and the float second/nanosecond conversions are
  modelled exactly over the integers, in nanoseconds, for plain decimal
  forms; exponent and hex forms are out of scope of the claims.
-/

set_option autoImplicit false

namespace Memu

/-- The value of `time.Second` in nanoseconds. -/
def Second : Int := 1000000000

/-- Interpret an integer as a 64-bit value in two-complement style, as
the Go `int64` / `time.Duration` arithmetic does on overflow. -/
def wrap64 (x : Int) : Int :=
  let r := x % (2 ^ 64 : Int)
  if r < (2 ^ 63 : Int) then r else r - (2 ^ 64 : Int)

/-- The Go shift `1 << uint(attempt)` at type `time.Duration` (int64):
converting a
negative `int` to `uint` yields a shift count ≥ 64, and any shift count
≥ 64 produces 0; otherwise the shift wraps at 64 bits. -/
def goShl1 (attempt : Int) : Int :=
  if attempt < 0 then 0 else wrap64 (2 ^ attempt.toNat)

/-- Embeds `RetryConfig` from models.go. `RetryableStatusCodes` is a Go
`map[int]bool`; lookup of an absent key yields `false`, so it is modelled
as its (total) lookup function. -/
structure RetryConfig where
  MaxRetries : Int
  BaseDelay : Int
  MaxDelay : Int
  RetryableStatusCodes : Int → Bool

/-- Embeds `DefaultRetryConfig` from models.go: 3 retries, 1s base delay, 32s max
delay, retryable set 429/500/502/503/504. -/
def DefaultRetryConfig : RetryConfig where
  MaxRetries := 3
  BaseDelay := 1 * Second
  MaxDelay := 32 * Second
  RetryableStatusCodes := fun s =>
    s == 429 || s == 500 || s == 502 || s == 503 || s == 504

/-- The `RetryPolicy` interface from models.go, as a record of its two
operations. The attempt and status code are Go `int`s, the error is
`Option String`, the backoff a duration in nanoseconds. -/
structure RetryPolicy where
  shouldRetry : Int → Int → Option String → Bool
  getBackoff : Int → Int

/-- Embeds `defaultRetryPolicy.ShouldRetry` from models.go. -/
def defaultShouldRetry (config : RetryConfig) (attempt statusCode : Int)
    (err : Option String) : Bool :=
  if attempt ≥ config.MaxRetries then false
  else if err.isSome then true
  else if statusCode > 0 then config.RetryableStatusCodes statusCode
  else false

/-- Embeds `defaultRetryPolicy.GetBackoff` from models.go:
`BaseDelay * (1 << uint(attempt))` in int64 arithmetic, capped at
`MaxDelay`. -/
def defaultGetBackoff (config : RetryConfig) (attempt : Int) : Int :=
  let backoff := wrap64 (config.BaseDelay * goShl1 attempt)
  if backoff > config.MaxDelay then config.MaxDelay else backoff

/-- Embeds `NewDefaultRetryPolicy` from models.go: a `nil` config selects
`DefaultRetryConfig`. -/
def NewDefaultRetryPolicy (config : Option RetryConfig) : RetryPolicy :=
  let c := config.getD DefaultRetryConfig
  { shouldRetry := defaultShouldRetry c
    getBackoff := defaultGetBackoff c }

/-- Embeds `NewNoRetryPolicy` from models.go: never retries, zero backoff. -/
def NewNoRetryPolicy : RetryPolicy :=
  { shouldRetry := fun _ _ _ => false
    getBackoff := fun _ => 0 }

/-- Embeds `NewCustomRetryPolicy` from models.go: caller-supplied decision and
backoff functions, with the hard `attempt >= maxRetries` ceiling applied
before the custom decision function. -/
def NewCustomRetryPolicy (maxRetries : Int)
    (shouldRetry : Int → Int → Option String → Bool)
    (getBackoff : Int → Int) : RetryPolicy :=
  { shouldRetry := fun attempt statusCode err =>
      if attempt ≥ maxRetries then false
      else shouldRetry attempt statusCode err
    getBackoff := getBackoff }

/-! ## JSON values and the decoding of response bodies

`Client.request` unmarshals the response body into a
`map[string]interface` value. The model parses the body with the JSON
grammar of `encoding/json`; numbers keep their source lexeme, since no
claim inspects numeric values. -/

/-- JSON values as decoded by `encoding/json` into untyped data. -/
inductive JSON where
  | null
  | bool (b : Bool)
  | num (lexeme : String)
  | str (s : String)
  | arr (elems : List JSON)
  | obj (fields : List (String × JSON))

/-- A decoded JSON object: field list in textual order. -/
abbrev JSONObj := List (String × JSON)

/-- Skip JSON whitespace (space, tab, newline, carriage return). -/
def skipWs : List Char → List Char
  | c :: cs =>
    if c = ' ' ∨ c = '\t' ∨ c = '\n' ∨ c = '\r' then skipWs cs else c :: cs
  | [] => []

/-- Value of a hexadecimal digit. -/
def hexVal (c : Char) : Option Nat :=
  if '0' ≤ c ∧ c ≤ '9' then some (c.toNat - '0'.toNat)
  else if 'a' ≤ c ∧ c ≤ 'f' then some (c.toNat - 'a'.toNat + 10)
  else if 'A' ≤ c ∧ c ≤ 'F' then some (c.toNat - 'A'.toNat + 10)
  else none

/-- Body of a JSON string literal, after the opening quote: plain
characters and the standard escapes. `\uXXXX` is decoded for scalar
values; surrogate halves are rejected (a divergence from `encoding/json`
only on bodies no claim exercises). Unescaped control characters are
invalid, as in `encoding/json`. -/
def parseStringBody : List Char → List Char → Option (String × List Char)
  | acc, '"' :: rest => some (String.mk acc.reverse, rest)
  | acc, '\\' :: '"' :: rest => parseStringBody ('"' :: acc) rest
  | acc, '\\' :: '\\' :: rest => parseStringBody ('\\' :: acc) rest
  | acc, '\\' :: '/' :: rest => parseStringBody ('/' :: acc) rest
  | acc, '\\' :: 'b' :: rest => parseStringBody ('\x08' :: acc) rest
  | acc, '\\' :: 'f' :: rest => parseStringBody ('\x0c' :: acc) rest
  | acc, '\\' :: 'n' :: rest => parseStringBody ('\n' :: acc) rest
  | acc, '\\' :: 'r' :: rest => parseStringBody ('\r' :: acc) rest
  | acc, '\\' :: 't' :: rest => parseStringBody ('\t' :: acc) rest
  | acc, '\\' :: 'u' :: h1 :: h2 :: h3 :: h4 :: rest =>
    match hexVal h1, hexVal h2, hexVal h3, hexVal h4 with
    | some a, some b, some c, some d =>
      let code := ((a * 16 + b) * 16 + c) * 16 + d
      if 0xD800 ≤ code ∧ code < 0xE000 then none
      else parseStringBody (Char.ofNat code :: acc) rest
    | _, _, _, _ => none
  | _, '\\' :: _ => none
  | acc, c :: rest =>
    if c.toNat < 32 then none else parseStringBody (c :: acc) rest
  | _, [] => none

/-- Numeric value of a digit sequence. -/
def digitsToNat (ds : List Char) : Nat :=
  ds.foldl (fun n c => n * 10 + (c.toNat - '0'.toNat)) 0

/-- Strict JSON integer part: `0`, or a nonzero digit followed by
digits. -/
def parseIntPart : List Char → Option (List Char × List Char)
  | '0' :: rest => some (['0'], rest)
  | c :: rest =>
    if c.isDigit then
      let (ds, rest2) := rest.span Char.isDigit
      some (c :: ds, rest2)
    else none
  | [] => none

/-- A JSON number lexeme: optional minus, integer part, optional fraction
and exponent (each consumed only when well formed; a malformed tail is
left in place and makes the surrounding context fail, as it does in
`encoding/json`). -/
def parseNumber (cs : List Char) : Option (String × List Char) :=
  let (sign, cs1) : List Char × List Char := match cs with
    | '-' :: rest => (['-'], rest)
    | _ => ([], cs)
  match parseIntPart cs1 with
  | none => none
  | some (intPart, cs2) =>
    let (fracPart, cs3) : List Char × List Char := match cs2 with
      | '.' :: rest =>
        match rest.span Char.isDigit with
        | ([], _) => ([], cs2)
        | (ds, rest2) => ('.' :: ds, rest2)
      | _ => ([], cs2)
    let (expPart, cs4) : List Char × List Char := match cs3 with
      | e :: rest =>
        if e = 'e' ∨ e = 'E' then
          let (sgn, rest2) : List Char × List Char := match rest with
            | '+' :: r => (['+'], r)
            | '-' :: r => (['-'], r)
            | _ => ([], rest)
          match rest2.span Char.isDigit with
          | ([], _) => ([], cs3)
          | (ds, rest3) => (e :: (sgn ++ ds), rest3)
        else ([], cs3)
      | _ => ([], cs3)
    some (String.mk (sign ++ intPart ++ fracPart ++ expPart), cs4)

mutual

/-- One JSON value. `fuel` bounds the mutual recursion; the top-level
entry point supplies `length + 1`, which covers every input a successful
parse can consume. -/
def parseValue : Nat → List Char → Option (JSON × List Char)
  | 0, _ => none
  | fuel + 1, cs =>
    match skipWs cs with
    | '\x7b' :: rest =>
      match skipWs rest with
      | '\x7d' :: rest2 => some (.obj [], rest2)
      | _ =>
        match parseMembers fuel rest with
        | some (fields, rest2) => some (.obj fields, rest2)
        | none => none
    | '[' :: rest =>
      match skipWs rest with
      | ']' :: rest2 => some (.arr [], rest2)
      | _ =>
        match parseElements fuel rest with
        | some (elems, rest2) => some (.arr elems, rest2)
        | none => none
    | '"' :: rest =>
      match parseStringBody [] rest with
      | some (s, rest2) => some (.str s, rest2)
      | none => none
    | 't' :: 'r' :: 'u' :: 'e' :: rest => some (.bool true, rest)
    | 'f' :: 'a' :: 'l' :: 's' :: 'e' :: rest => some (.bool false, rest)
    | 'n' :: 'u' :: 'l' :: 'l' :: rest => some (.null, rest)
    | other =>
      match parseNumber other with
      | some (lexeme, rest) => some (.num lexeme, rest)
      | none => none

/-- Comma-separated `"key": value` members of an object, up to and
including the closing brace. -/
def parseMembers : Nat → List Char → Option (JSONObj × List Char)
  | 0, _ => none
  | fuel + 1, cs =>
    match skipWs cs with
    | '"' :: rest =>
      match parseStringBody [] rest with
      | some (key, rest2) =>
        match skipWs rest2 with
        | ':' :: rest3 =>
          match parseValue fuel rest3 with
          | some (v, rest4) =>
            match skipWs rest4 with
            | ',' :: rest5 =>
              match parseMembers fuel rest5 with
              | some (fields, rest6) => some ((key, v) :: fields, rest6)
              | none => none
            | '\x7d' :: rest5 => some ([(key, v)], rest5)
            | _ => none
          | none => none
        | _ => none
      | none => none
    | _ => none

/-- Comma-separated array elements, up to and including the closing
bracket. -/
def parseElements : Nat → List Char → Option (List JSON × List Char)
  | 0, _ => none
  | fuel + 1, cs =>
    match parseValue fuel cs with
    | some (v, rest) =>
      match skipWs rest with
      | ',' :: rest2 =>
        match parseElements fuel rest2 with
        | some (elems, rest3) => some (v :: elems, rest3)
        | none => none
      | ']' :: rest2 => some ([v], rest2)
      | _ => none
    | none => none

end

/-- Parse a full body as one JSON value with only trailing whitespace, as
`json.Unmarshal` requires. -/
def parseJSONTop (s : String) : Option JSON :=
  match parseValue (s.length + 1) s.toList with
  | some (v, rest) => if skipWs rest = [] then some v else none
  | none => none

/-- The response-decoding step of `Client.request` (client.go): an empty
body is not decoded (nil map); a JSON object decodes to its fields; a JSON
`null` unmarshals into a nil map; any other body — unparseable, or a
non-object top value, either of which makes `json.Unmarshal` into a map
fail — falls back to the single-field `raw` mapping. -/
def decodeBody (respBody : String) : Option JSONObj :=
  if respBody.length > 0 then
    match parseJSONTop respBody with
    | some (.obj fields) => some fields
    | some .null => none
    | _ => some [("raw", .str respBody)]
  else none

/-! ## Retry-After parsing -/

/-- The 429 wait computed from a parseable `Retry-After` header, in
nanoseconds: the result of `strconv.ParseFloat` followed by the Go
conversion `time.Duration(seconds * float64(time.Second))`. A plain decimal form
(optional sign, digits, optional fractional part) is scaled exactly and
truncated toward zero, which is what the float conversion yields on every
header a claim exercises; `none` when `ParseFloat` fails (exponent, hex
and Inf/NaN forms, which no claim exercises, are also treated as
unparseable). -/
def parseRetryAfterNs (s : String) : Option Int :=
  let cs := s.toList
  let (neg, cs1) : Bool × List Char := match cs with
    | '-' :: rest => (true, rest)
    | '+' :: rest => (false, rest)
    | _ => (false, cs)
  let (intDs, cs2) := cs1.span Char.isDigit
  let (fracDs, cs3) : List Char × List Char := match cs2 with
    | '.' :: rest => rest.span Char.isDigit
    | _ => ([], cs2)
  let dotPresent : Bool := match cs2 with
    | '.' :: _ => true
    | _ => false
  if cs3 = [] ∧ (intDs ≠ [] ∨ fracDs ≠ []) ∧ (dotPresent ∨ cs2 = []) then
    let mag : Nat :=
      digitsToNat intDs * 1000000000 +
        digitsToNat fracDs * 1000000000 / 10 ^ fracDs.length
    some (if neg then -(mag : Int) else (mag : Int))
  else none

/-! ## Error taxonomy (errors.go) -/

/-- The SDK error values that `Client.request` can return: the typed
errors of errors.go plus the two `fmt.Errorf` failures of client.go
(marshal failure and exhausted transport errors). -/
inductive ReqError where
  | marshalError (msg : String)
  | transportFailure (attempts : Int) (cause : String)
  | rateLimitError (message : String) (retryAfterNs : Int) (statusCode : Int)
      (response : Option JSONObj)
  | authenticationError (message : String) (statusCode : Int) (response : Option JSONObj)
  | notFoundError (message : String) (statusCode : Int) (response : Option JSONObj)
  | validationError (message : String) (statusCode : Int) (response : Option JSONObj)
  | clientError (message : String) (statusCode : Int) (response : Option JSONObj)

/-- Lookup in a decoded object. `encoding/json` fills a Go map, so a
duplicated key keeps its last occurrence. -/
def lookupGo (fields : JSONObj) (key : String) : Option JSON :=
  match fields with
  | [] => none
  | (k, v) :: rest =>
    match lookupGo rest key with
    | some r => some r
    | none => if k = key then some v else none

/-- Embeds `NewAuthenticationError` from errors.go: the default message is
overridden by a non-empty string `message` field of the response body. -/
def NewAuthenticationError (statusCode : Int) (response : Option JSONObj) : ReqError :=
  let message := "Authentication failed. Please check your API key."
  let message := match response with
    | some fields =>
      match lookupGo fields "message" with
      | some (.str msg) => if msg ≠ "" then msg else message
      | _ => message
    | none => message
  .authenticationError message statusCode response

/-- Embeds `NewNotFoundError` from errors.go: same override rule as
`NewAuthenticationError`. -/
def NewNotFoundError (path : String) (statusCode : Int) (response : Option JSONObj) :
    ReqError :=
  let message := "Resource not found: " ++ path
  let message := match response with
    | some fields =>
      match lookupGo fields "message" with
      | some (.str msg) => if msg ≠ "" then msg else message
      | _ => message
    | none => message
  .notFoundError message statusCode response

/-- Embeds `NewValidationError` from errors.go: same override rule as
`NewAuthenticationError`. -/
def NewValidationError (statusCode : Int) (response : Option JSONObj) : ReqError :=
  let message := "Request validation failed. Please check your request parameters."
  let message := match response with
    | some fields =>
      match lookupGo fields "message" with
      | some (.str msg) => if msg ≠ "" then msg else message
      | _ => message
    | none => message
  .validationError message statusCode response

/-- Embeds `NewClientError` from errors.go: the message is taken as supplied,
never overridden by the response body. -/
def NewClientError (message : String) (statusCode : Int) (response : Option JSONObj) :
    ReqError :=
  .clientError message statusCode response

/-- Embeds `NewRateLimitError` from errors.go. Go stores the wait as float
seconds (`float64(waitTime) / float64(time.Second)`); the model carries
the same wait as its exact value in nanoseconds. -/
def NewRateLimitError (message : String) (retryAfterNs : Int) (statusCode : Int)
    (response : Option JSONObj) : ReqError :=
  .rateLimitError message retryAfterNs statusCode response

/-- Embeds `Client.raiseForStatus` from client.go: the 4xx switch. -/
def raiseForStatus (statusCode : Int) (path : String) (response : Option JSONObj) :
    ReqError :=
  if statusCode = 401 then NewAuthenticationError statusCode response
  else if statusCode = 404 then NewNotFoundError path statusCode response
  else if statusCode = 422 then NewValidationError statusCode response
  else NewClientError ("HTTP " ++ toString statusCode ++ ": " ++ path) statusCode response

/-- The 5xx error message of client.go: the status code, and the raw body
text when the body is non-empty. -/
def serverErrorMessage (statusCode : Int) (respBody : String) : String :=
  if respBody.length > 0 then
    "server error: " ++ toString statusCode ++ ", response: " ++ respBody
  else
    "server error: " ++ toString statusCode

/-! ## The request executor (client.go) -/

/-- One possible outcome of `httpClient.Do` for a single attempt, supplied
by the environment: a transport-level error, or a response carrying a
status code, the `Retry-After` header value (`""` when the header is
absent, as `Header.Get` reports), and the body text. -/
inductive AttemptOutcome where
  | transportError (cause : String)
  | response (statusCode : Int) (retryAfter : String) (body : String)

/-- Result of running the `Client.request` loop against a finite
environment. `attempts` counts the HTTP attempts actually performed;
`starved` marks an environment that supplied fewer outcomes than the loop
asked for. -/
inductive RunResult where
  | ok (attempts : Nat) (payload : Option JSONObj)
  | fail (attempts : Nat) (e : ReqError)
  | starved (attempts : Nat)

/-- The retry loop of `Client.request` (client.go), one environment
outcome per attempt. The request body is `none` (nil), or
`some (Except.ok payload)` when `json.Marshal` succeeds, or
`some (Except.error msg)` when it fails — marshalling happens at the top
of every iteration, before the HTTP call. Sleeping is a no-op (time is
not modelled), and `http.NewRequestWithContext` on the fixed SDK
methods and URL strings cannot fail and is elided. -/
def runRequest (policy : RetryPolicy) (body : Option (Except String String))
    (path : String) : List AttemptOutcome → Nat → RunResult
  | [], attempt =>
    match body with
    | some (.error msg) => .fail attempt (.marshalError msg)
    | _ => .starved attempt
  | outcome :: rest, attempt =>
    match body with
    | some (.error msg) => .fail attempt (.marshalError msg)
    | _ =>
      match outcome with
      | .transportError cause =>
        if policy.shouldRetry (attempt : Int) 0 (some cause) then
          runRequest policy body path rest (attempt + 1)
        else
          .fail (attempt + 1) (.transportFailure ((attempt : Int) + 1) cause)
      | .response statusCode retryAfter respBody =>
        let result := decodeBody respBody
        if statusCode = 429 then
          let waitTime : Int :=
            if retryAfter ≠ "" then
              match parseRetryAfterNs retryAfter with
              | some ns => ns
              | none => 0
            else policy.getBackoff (attempt : Int)
          if policy.shouldRetry (attempt : Int) statusCode none then
            runRequest policy body path rest (attempt + 1)
          else
            .fail (attempt + 1)
              (NewRateLimitError "rate limit exceeded" waitTime statusCode result)
        else if statusCode ≥ 500 then
          if policy.shouldRetry (attempt : Int) statusCode none then
            runRequest policy body path rest (attempt + 1)
          else
            .fail (attempt + 1)
              (NewClientError (serverErrorMessage statusCode respBody) statusCode result)
        else if statusCode ≥ 400 then
          .fail (attempt + 1) (raiseForStatus statusCode path result)
        else
          .ok (attempt + 1) result

/-- The fields of the Go `Client` relevant to the request loop, including
`maxRetries`, which `request` never reads. -/
structure Client where
  apiKey : String
  baseURL : String
  maxRetries : Int
  retryPolicy : RetryPolicy

/-- Embeds `WithMaxRetries` from options.go: sets only the `maxRetries` field. -/
def WithMaxRetries (retries : Int) : Client → Client :=
  fun c => { c with maxRetries := retries }

/-- Runs `Client.request` on a given environment: the loop starts at attempt
0 and consults only the configured retry policy. -/
def Client.request (c : Client) (body : Option (Except String String))
    (path : String) (outcomes : List AttemptOutcome) : RunResult :=
  runRequest c.retryPolicy body path outcomes 0

/-! ## Observation helpers used by the claim statements -/

/-- Whether a request body fails to serialize. -/
def marshalFails : Option (Except String String) → Bool
  | some (.error _) => true
  | _ => false

/-- The message-override observation of the spec: a non-empty string field
named `message` in a decoded body, if any. -/
def getMessageField : Option JSONObj → Option String
  | none => none
  | some fields =>
    match lookupGo fields "message" with
    | some (.str m) => if m = "" then none else some m
    | _ => none

/-- The default retry configuration with the retry budget exhausted from
the start: used to exercise declined-retry outcomes on attempt 0. -/
def zeroRetryConfig : RetryConfig :=
  { DefaultRetryConfig with MaxRetries := 0 }

/-! ## Theorems -/

/-- Rewrites `NewAuthenticationError` in terms of the message-override
observation. -/
theorem NewAuthenticationError_eq (statusCode : Int) (response : Option JSONObj) :
    NewAuthenticationError statusCode response
      = .authenticationError
          ((getMessageField response).getD "Authentication failed. Please check your API key.")
          statusCode response := by
  cases response with
  | none => rfl
  | some fields =>
    simp only [NewAuthenticationError, getMessageField]
    cases lookupGo fields "message" with
    | none => rfl
    | some v =>
      cases v <;> try rfl
      case str m =>
        by_cases h : m = "" <;> simp [h]

/-- Rewrites `NewNotFoundError` in terms of the message-override observation. -/
theorem NewNotFoundError_eq (path : String) (statusCode : Int) (response : Option JSONObj) :
    NewNotFoundError path statusCode response
      = .notFoundError
          ((getMessageField response).getD ("Resource not found: " ++ path))
          statusCode response := by
  cases response with
  | none => rfl
  | some fields =>
    simp only [NewNotFoundError, getMessageField]
    cases lookupGo fields "message" with
    | none => rfl
    | some v =>
      cases v <;> try rfl
      case str m =>
        by_cases h : m = "" <;> simp [h]

/-- Rewrites `NewValidationError` in terms of the message-override observation. -/
theorem NewValidationError_eq (statusCode : Int) (response : Option JSONObj) :
    NewValidationError statusCode response
      = .validationError
          ((getMessageField response).getD
            "Request validation failed. Please check your request parameters.")
          statusCode response := by
  cases response with
  | none => rfl
  | some fields =>
    simp only [NewValidationError, getMessageField]
    cases lookupGo fields "message" with
    | none => rfl
    | some v =>
      cases v <;> try rfl
      case str m =>
        by_cases h : m = "" <;> simp [h]

/-- C2, counterexample: the claim as stated — for every attempt `n ≥ 0`
the backoff of the default policy equals `min(baseDelay * 2^n, maxDelay)` under
exact integer arithmetic — fails at attempt 34: the int64 product
`baseDelay * (1 << 34)` overflows and the code returns a negative
duration instead of the exact `min`, which is the 32s cap. -/
theorem claim2_counterexample :
    (NewDefaultRetryPolicy none).getBackoff 34
        ≠ min (DefaultRetryConfig.BaseDelay * 2 ^ (34 : Nat)) DefaultRetryConfig.MaxDelay
    ∧ (NewDefaultRetryPolicy none).getBackoff 34 < 0
    ∧ min (DefaultRetryConfig.BaseDelay * 2 ^ (34 : Nat)) DefaultRetryConfig.MaxDelay
        = 32 * Second :=
  ⟨by decide, by decide, by decide⟩

/-- C2, amended: for every attempt `0 ≤ n < 34` — exactly those where
`baseDelay * 2^n` still fits in int64 for the default configuration — the
default retry policy `GetBackoff(n)` equals `min(baseDelay * 2^n,
maxDelay)` under exact integer arithmetic; in particular it saturates at
`maxDelay`, and `GetBackoff(10) = 32s` exactly. -/
theorem claim2 : ∀ n : Nat, n < 34 →
    (NewDefaultRetryPolicy none).getBackoff (n : Int)
      = min (DefaultRetryConfig.BaseDelay * 2 ^ n) DefaultRetryConfig.MaxDelay := by
  set_option maxRecDepth 4096 in decide

/-- C2, witness: the saturation instance of the spec, `GetBackoff(10)` with
baseDelay 1s and maxDelay 32s is exactly 32s. -/
theorem claim2_witness :
    (NewDefaultRetryPolicy none).getBackoff ((10 : Nat) : Int)
      = min (DefaultRetryConfig.BaseDelay * 2 ^ (10 : Nat)) DefaultRetryConfig.MaxDelay
    ∧ min (DefaultRetryConfig.BaseDelay * 2 ^ (10 : Nat)) DefaultRetryConfig.MaxDelay
      = 32 * Second :=
  ⟨claim2 10 (by decide), by decide⟩

/-- C4: both SDK retry policies refuse once `attempt ≥ maxRetries`; below
the ceiling the default policy retries on any transport error regardless
of status, and otherwise retries a positive status exactly when it is in
the retryable set, whose default is 429, 500, 502, 503, 504. -/
theorem claim4 (c : RetryConfig) (m : Int)
    (f : Int → Int → Option String → Bool) (g : Int → Int)
    (attempt statusCode : Int) (err : Option String) :
    (attempt ≥ c.MaxRetries →
      (NewDefaultRetryPolicy (some c)).shouldRetry attempt statusCode err = false)
    ∧ (attempt ≥ m →
      (NewCustomRetryPolicy m f g).shouldRetry attempt statusCode err = false)
    ∧ (attempt < c.MaxRetries → err.isSome = true →
      (NewDefaultRetryPolicy (some c)).shouldRetry attempt statusCode err = true)
    ∧ (attempt < c.MaxRetries → err = none → 0 < statusCode →
      (NewDefaultRetryPolicy (some c)).shouldRetry attempt statusCode err
        = c.RetryableStatusCodes statusCode)
    ∧ (DefaultRetryConfig.RetryableStatusCodes statusCode = true ↔
        statusCode = 429 ∨ statusCode = 500 ∨ statusCode = 502 ∨
        statusCode = 503 ∨ statusCode = 504) := by
  refine ⟨?_, ?_, ?_, ?_, ?_⟩
  · intro h
    show defaultShouldRetry c attempt statusCode err = false
    simp [defaultShouldRetry, h]
  · intro h
    show (if attempt ≥ m then false else f attempt statusCode err) = false
    simp [h]
  · intro h herr
    show defaultShouldRetry c attempt statusCode err = true
    simp [defaultShouldRetry, not_le.mpr h, herr]
  · intro h herr hpos
    subst herr
    show defaultShouldRetry c attempt statusCode none = c.RetryableStatusCodes statusCode
    simp [defaultShouldRetry, not_le.mpr h, hpos]
  · show (decide (statusCode = 429) || decide (statusCode = 500) ||
        decide (statusCode = 502) || decide (statusCode = 503) ||
        decide (statusCode = 504)) = true ↔ _
    simp [or_assoc]

/-- C4, witness: concrete instances of each conjunct — refusal at the
ceiling for the default (attempt 3) and a custom policy (attempt 2),
retry of a transport error below the ceiling, the retryable-set decision
for status 500, and membership of 429 in the default set. -/
theorem claim4_witness :
    (NewDefaultRetryPolicy (some DefaultRetryConfig)).shouldRetry 3 500 none = false
    ∧ (NewCustomRetryPolicy 2 (fun _ _ _ => true) (fun _ => 0)).shouldRetry 2 500 none = false
    ∧ (NewDefaultRetryPolicy (some DefaultRetryConfig)).shouldRetry 0 0 (some "eof") = true
    ∧ (NewDefaultRetryPolicy (some DefaultRetryConfig)).shouldRetry 0 500 none
        = DefaultRetryConfig.RetryableStatusCodes 500
    ∧ (DefaultRetryConfig.RetryableStatusCodes 429 = true ↔
        (429 : Int) = 429 ∨ (429 : Int) = 500 ∨ (429 : Int) = 502 ∨
        (429 : Int) = 503 ∨ (429 : Int) = 504) :=
  ⟨(claim4 DefaultRetryConfig 2 (fun _ _ _ => true) (fun _ => 0) 3 500 none).1 (by decide),
   (claim4 DefaultRetryConfig 2 (fun _ _ _ => true) (fun _ => 0) 2 500 none).2.1 (by decide),
   (claim4 DefaultRetryConfig 2 (fun _ _ _ => true) (fun _ => 0) 0 0 (some "eof")).2.2.1
     (by decide) rfl,
   (claim4 DefaultRetryConfig 2 (fun _ _ _ => true) (fun _ => 0) 0 500 none).2.2.2.1
     (by decide) rfl (by decide),
   (claim4 DefaultRetryConfig 2 (fun _ _ _ => true) (fun _ => 0) 0 429 none).2.2.2.2⟩

/-- C7: a successful response whose body is the JSON object with fields
task_id "t1" and status "PENDING" decodes to exactly that two-field
mapping, a successful response whose body is the non-JSON text
"plain text" decodes to the single-field raw mapping, and in both cases
the call succeeds. -/
theorem claim7 :
    decodeBody "\x7b\"task_id\":\"t1\",\"status\":\"PENDING\"\x7d"
      = some [("task_id", .str "t1"), ("status", .str "PENDING")]
    ∧ decodeBody "plain text" = some [("raw", .str "plain text")]
    ∧ runRequest (NewDefaultRetryPolicy none) none "/p"
        [.response 200 "" "\x7b\"task_id\":\"t1\",\"status\":\"PENDING\"\x7d"] 0
        = .ok 1 (some [("task_id", .str "t1"), ("status", .str "PENDING")])
    ∧ runRequest (NewDefaultRetryPolicy none) none "/p"
        [.response 200 "" "plain text"] 0
        = .ok 1 (some [("raw", .str "plain text")]) :=
  ⟨rfl, rfl, rfl, rfl⟩

/-- C8: a request body that fails to serialize makes the executor fail at
once with the marshal error — no HTTP attempt is consumed and the result
is the same for every retry policy and environment. -/
theorem claim8 (policy : RetryPolicy) (path msg : String)
    (outcomes : List AttemptOutcome) (attempt : Nat) :
    runRequest policy (some (.error msg)) path outcomes attempt
      = .fail attempt (.marshalError msg) := by
  cases outcomes <;> rfl

/-- C9: the request loop never reads the `maxRetries` field of the client —
changing it through `WithMaxRetries` changes neither the attempts
performed nor the result — and the own default budget of the policy is 3. -/
theorem claim9 (c : Client) (retries : Int) (body : Option (Except String String))
    (path : String) (outcomes : List AttemptOutcome) :
    (WithMaxRetries retries c).request body path outcomes = c.request body path outcomes
    ∧ (WithMaxRetries retries c).retryPolicy = c.retryPolicy
    ∧ DefaultRetryConfig.MaxRetries = 3 :=
  ⟨rfl, rfl, rfl⟩

/-- C3: with the default policy, the response sequence 500, 500, 200
takes exactly 3 attempts and returns the decoded 200 payload; the
sequence 500, 500, 500, 500 takes exactly maxRetries + 1 = 4 attempts and
returns the server-error failure whose message names the status code and,
for a non-empty body, the raw body text. -/
theorem claim3 (path ra1 ra2 ra3 ra4 b1 b2 b3 b4 : String) :
    runRequest (NewDefaultRetryPolicy none) none path
        [.response 500 ra1 b1, .response 500 ra2 b2, .response 200 ra3 b3] 0
      = .ok 3 (decodeBody b3)
    ∧ runRequest (NewDefaultRetryPolicy none) none path
        [.response 500 ra1 b1, .response 500 ra2 b2, .response 500 ra3 b3,
         .response 500 ra4 b4] 0
      = .fail 4 (.clientError (serverErrorMessage 500 b4) 500 (decodeBody b4))
    ∧ serverErrorMessage 500 "" = "server error: 500"
    ∧ (0 < b4.length → serverErrorMessage 500 b4
        = "server error: 500, response: " ++ b4) := by
  refine ⟨rfl, rfl, rfl, ?_⟩
  intro h
  unfold serverErrorMessage
  rw [if_pos h]
  rfl

/-- C3, witness: the two scenarios at concrete bodies; the terminal
failure message contains the status code and the raw body text. -/
theorem claim3_witness :
    runRequest (NewDefaultRetryPolicy none) none "/p"
        [.response 500 "" "a", .response 500 "" "b", .response 200 "" "c"] 0
      = .ok 3 (decodeBody "c")
    ∧ runRequest (NewDefaultRetryPolicy none) none "/p"
        [.response 500 "" "", .response 500 "" "", .response 500 "" "",
         .response 500 "" "oops"] 0
      = .fail 4 (.clientError (serverErrorMessage 500 "oops") 500 (decodeBody "oops"))
    ∧ serverErrorMessage 500 "oops" = "server error: 500, response: " ++ "oops" :=
  ⟨(claim3 "/p" "" "" "" "" "a" "b" "c" "oops").1,
   (claim3 "/p" "" "" "" "" "a" "b" "c" "oops").2.1,
   (claim3 "/p" "" "" "" "" "a" "b" "c" "oops").2.2.2 (by decide)⟩

/-- C5: for a terminal 4xx other than 429, the classifier maps 401, 404
and 422 to their typed errors whose default message is overridden by a
non-empty string `message` body field, and every other 4xx to the generic
client error whose synthesized `HTTP status: path` message is never
overridden; every error carries the status code and the decoded body. -/
theorem claim5 (statusCode : Int) (path : String) (response : Option JSONObj)
    (h1 : 400 ≤ statusCode) (h2 : statusCode < 500) (h3 : statusCode ≠ 429) :
    (statusCode = 401 → raiseForStatus statusCode path response
        = .authenticationError
            ((getMessageField response).getD
              "Authentication failed. Please check your API key.")
            statusCode response)
    ∧ (statusCode = 404 → raiseForStatus statusCode path response
        = .notFoundError
            ((getMessageField response).getD ("Resource not found: " ++ path))
            statusCode response)
    ∧ (statusCode = 422 → raiseForStatus statusCode path response
        = .validationError
            ((getMessageField response).getD
              "Request validation failed. Please check your request parameters.")
            statusCode response)
    ∧ (statusCode ≠ 401 → statusCode ≠ 404 → statusCode ≠ 422 →
        raiseForStatus statusCode path response
          = .clientError ("HTTP " ++ toString statusCode ++ ": " ++ path)
              statusCode response) := by
  refine ⟨?_, ?_, ?_, ?_⟩
  · rintro rfl
    simpa [raiseForStatus] using NewAuthenticationError_eq 401 response
  · rintro rfl
    simpa [raiseForStatus] using NewNotFoundError_eq path 404 response
  · rintro rfl
    simpa [raiseForStatus] using NewValidationError_eq 422 response
  · intro h401 h404 h422
    simp [raiseForStatus, h401, h404, h422, NewClientError]

/-- C5, witness: at 401 a body `message` field overrides the default
message; at 418 the generic client error keeps the synthesized message
even though the body carries a `message` field, and carries status and
body. -/
theorem claim5_witness :
    raiseForStatus 401 "/p" (some [("message", .str "bad key")])
      = .authenticationError "bad key" 401 (some [("message", .str "bad key")])
    ∧ raiseForStatus 418 "/p" (some [("message", .str "ignored")])
      = .clientError ("HTTP " ++ toString (418 : Int) ++ ": " ++ "/p") 418
          (some [("message", .str "ignored")]) :=
  ⟨(claim5 401 "/p" (some [("message", .str "bad key")])
      (by decide) (by decide) (by decide)).1 rfl,
   (claim5 418 "/p" (some [("message", .str "ignored")])
      (by decide) (by decide) (by decide)).2.2.2
      (by decide) (by decide) (by decide)⟩

/-- C6: a response with a 4xx status other than 429 is terminal on any
attempt, for every retry policy: the executor consumes exactly one more
attempt and returns the classifier result; with status 401 this is the
authentication error carrying status 401. -/
theorem claim6 (policy : RetryPolicy) (body : Option (Except String String))
    (path : String) (rest : List AttemptOutcome) (attempt : Nat)
    (statusCode : Int) (retryAfter respBody : String)
    (hbody : marshalFails body = false)
    (h1 : 400 ≤ statusCode) (h2 : statusCode < 500) (h3 : statusCode ≠ 429) :
    runRequest policy body path (.response statusCode retryAfter respBody :: rest) attempt
      = .fail (attempt + 1) (raiseForStatus statusCode path (decodeBody respBody))
    ∧ runRequest policy body path (.response 401 retryAfter respBody :: rest) attempt
      = .fail (attempt + 1)
          (.authenticationError
            ((getMessageField (decodeBody respBody)).getD
              "Authentication failed. Please check your API key.")
            401 (decodeBody respBody)) := by
  have h500 : ¬ statusCode ≥ 500 := not_le.mpr h2
  cases body with
  | none =>
    constructor
    · simp only [runRequest]
      rw [if_neg h3, if_neg h500, if_pos h1]
    · simp only [runRequest]
      norm_num [raiseForStatus]
      exact NewAuthenticationError_eq 401 (decodeBody respBody)
  | some e =>
    cases e with
    | error msg => simp [marshalFails] at hbody
    | ok payload =>
      constructor
      · simp only [runRequest]
        rw [if_neg h3, if_neg h500, if_pos h1]
      · simp only [runRequest]
        norm_num [raiseForStatus]
        exact NewAuthenticationError_eq 401 (decodeBody respBody)

/-- C6, witness: a 403 on attempt 0 of a retry-capable default policy is
terminal with the classifier result, and a 401 on attempt 0 yields the
authentication error with status 401. -/
theorem claim6_witness :
    runRequest (NewDefaultRetryPolicy none) none "/p" [.response 403 "" ""] 0
      = .fail 1 (raiseForStatus 403 "/p" (decodeBody ""))
    ∧ runRequest (NewDefaultRetryPolicy none) none "/p" [.response 401 "" ""] 0
      = .fail 1
          (.authenticationError "Authentication failed. Please check your API key."
            401 none) :=
  ⟨(claim6 (NewDefaultRetryPolicy none) none "/p" [] 0 403 "" ""
      rfl (by decide) (by decide) (by decide)).1,
   (claim6 (NewDefaultRetryPolicy none) none "/p" [] 0 403 "" ""
      rfl (by decide) (by decide) (by decide)).2⟩

/-- C1, counterexample: the claim as stated says that whenever the
`Retry-After` header is not both present and parseable, the computed wait
equals the policy backoff for the attempt. With a present but
unparseable header ("soon"), retry declined on attempt 0, the code leaves
the wait at 0 even though the policy backoff is 1s: the returned error
carries wait 0, not `GetBackoff(0) = 1s`. -/
theorem claim1_counterexample :
    (NewDefaultRetryPolicy (some zeroRetryConfig)).shouldRetry 0 429 none = false
    ∧ parseRetryAfterNs "soon" = none
    ∧ (NewDefaultRetryPolicy (some zeroRetryConfig)).getBackoff 0 = Second
    ∧ runRequest (NewDefaultRetryPolicy (some zeroRetryConfig)) none "/p"
        [.response 429 "soon" ""] 0
        = .fail 1 (.rateLimitError "rate limit exceeded" 0 429 none)
    ∧ (0 : Int) ≠ Second :=
  ⟨rfl, rfl, rfl, rfl, by decide⟩

/-- C1, amended: on a 429 with retrying declined, the computed wait is the
header value in seconds when the header is present and parseable (header
"5" is exactly 5 seconds), the policy backoff for the current attempt
when the header is absent, and zero when the header is present but
unparseable; the rate-limit error carries exactly this wait, status 429,
and the decoded body. -/
theorem claim1 (policy : RetryPolicy) (body : Option (Except String String))
    (path retryAfter respBody : String) (rest : List AttemptOutcome) (attempt : Nat)
    (hbody : marshalFails body = false)
    (hdecl : policy.shouldRetry (attempt : Int) 429 none = false) :
    (∀ ns, parseRetryAfterNs retryAfter = some ns →
      runRequest policy body path (.response 429 retryAfter respBody :: rest) attempt
        = .fail (attempt + 1)
            (.rateLimitError "rate limit exceeded" ns 429 (decodeBody respBody)))
    ∧ (retryAfter = "" →
      runRequest policy body path (.response 429 retryAfter respBody :: rest) attempt
        = .fail (attempt + 1)
            (.rateLimitError "rate limit exceeded" (policy.getBackoff (attempt : Int)) 429
              (decodeBody respBody)))
    ∧ (retryAfter ≠ "" → parseRetryAfterNs retryAfter = none →
      runRequest policy body path (.response 429 retryAfter respBody :: rest) attempt
        = .fail (attempt + 1)
            (.rateLimitError "rate limit exceeded" 0 429 (decodeBody respBody)))
    ∧ parseRetryAfterNs "5" = some (5 * Second) := by
  cases body with
  | none =>
    refine ⟨?_, ?_, ?_, rfl⟩
    · intro ns hns
      have hne : retryAfter ≠ "" := by
        rintro rfl
        rw [show parseRetryAfterNs "" = none from rfl] at hns
        cases hns
      simp [runRequest, hne, hns, hdecl, NewRateLimitError]
    · rintro rfl
      simp [runRequest, hdecl, NewRateLimitError]
    · intro hne hnone
      simp [runRequest, hne, hnone, hdecl, NewRateLimitError]
  | some e =>
    cases e with
    | error msg => simp [marshalFails] at hbody
    | ok payload =>
      refine ⟨?_, ?_, ?_, rfl⟩
      · intro ns hns
        have hne : retryAfter ≠ "" := by
          rintro rfl
          rw [show parseRetryAfterNs "" = none from rfl] at hns
          cases hns
        simp [runRequest, hne, hns, hdecl, NewRateLimitError]
      · rintro rfl
        simp [runRequest, hdecl, NewRateLimitError]
      · intro hne hnone
        simp [runRequest, hne, hnone, hdecl, NewRateLimitError]

/-- C1, witness: a declined 429 with header "5" carries a wait of exactly
5 seconds; with the header absent it carries the policy backoff for the
attempt. -/
theorem claim1_witness :
    runRequest (NewDefaultRetryPolicy (some zeroRetryConfig)) none "/p"
        [.response 429 "5" ""] 0
      = .fail 1 (.rateLimitError "rate limit exceeded" (5 * Second) 429 none)
    ∧ runRequest (NewDefaultRetryPolicy (some zeroRetryConfig)) none "/p"
        [.response 429 "" ""] 0
      = .fail 1
          (.rateLimitError "rate limit exceeded"
            ((NewDefaultRetryPolicy (some zeroRetryConfig)).getBackoff 0) 429 none) :=
  ⟨(claim1 (NewDefaultRetryPolicy (some zeroRetryConfig)) none "/p" "5" "" [] 0
      rfl rfl).1 (5 * Second) rfl,
   (claim1 (NewDefaultRetryPolicy (some zeroRetryConfig)) none "/p" "" "" [] 0
      rfl rfl).2.1 rfl⟩

/-- C10: an empty response body is never decoded — a success returns a nil
payload (not a raw mapping), and terminal 401, declined 429 and declined
500 outcomes build their errors with a nil body; for non-empty bodies the
raw fallback arises exactly when the body does not unmarshal into a map,
and a body parsing as a JSON object is decoded to its fields, never the
fallback. -/
theorem claim10 (policy : RetryPolicy) (path retryAfter : String)
    (rest : List AttemptOutcome) (attempt : Nat) (s : String) :
    decodeBody "" = none
    ∧ runRequest policy none path (.response 200 retryAfter "" :: rest) attempt
        = .ok (attempt + 1) none
    ∧ runRequest policy none path (.response 401 retryAfter "" :: rest) attempt
        = .fail (attempt + 1)
            (.authenticationError "Authentication failed. Please check your API key."
              401 none)
    ∧ (policy.shouldRetry (attempt : Int) 429 none = false →
        runRequest policy none path (.response 429 "" "" :: rest) attempt
          = .fail (attempt + 1)
              (.rateLimitError "rate limit exceeded"
                (policy.getBackoff (attempt : Int)) 429 none))
    ∧ (policy.shouldRetry (attempt : Int) 500 none = false →
        runRequest policy none path (.response 500 retryAfter "" :: rest) attempt
          = .fail (attempt + 1) (.clientError "server error: 500" 500 none))
    ∧ (0 < s.length → decodeBody s
        = match parseJSONTop s with
          | some (.obj fields) => some fields
          | some .null => none
          | _ => some [("raw", .str s)])
    ∧ (∀ fields, 0 < s.length → parseJSONTop s = some (.obj fields) →
        decodeBody s = some fields) := by
  refine ⟨rfl, rfl, rfl, ?_, ?_, ?_, ?_⟩
  · intro h
    simp [runRequest, h, NewRateLimitError, decodeBody]
  · intro h
    simp [runRequest, h, NewClientError, decodeBody, serverErrorMessage]
    rfl
  · intro h
    unfold decodeBody
    rw [if_pos h]
  · intro fields h hp
    unfold decodeBody
    rw [if_pos h, hp]

/-- C10, witness: empty-body outcomes of the no-retry policy carry nil
decoded bodies; a non-empty non-JSON body gets the raw fallback and a
JSON-object body decodes to its fields. -/
theorem claim10_witness :
    runRequest NewNoRetryPolicy none "/p" [.response 200 "" ""] 0 = .ok 1 none
    ∧ runRequest NewNoRetryPolicy none "/p" [.response 429 "" ""] 0
        = .fail 1 (.rateLimitError "rate limit exceeded" 0 429 none)
    ∧ runRequest NewNoRetryPolicy none "/p" [.response 500 "" ""] 0
        = .fail 1 (.clientError "server error: 500" 500 none)
    ∧ decodeBody "not json" = some [("raw", .str "not json")]
    ∧ decodeBody "\x7b\"a\":\"b\"\x7d" = some [("a", .str "b")] :=
  ⟨(claim10 NewNoRetryPolicy "/p" "" [] 0 "x").2.1,
   (claim10 NewNoRetryPolicy "/p" "" [] 0 "x").2.2.2.1 rfl,
   (claim10 NewNoRetryPolicy "/p" "" [] 0 "x").2.2.2.2.1 rfl,
   ((claim10 NewNoRetryPolicy "/p" "" [] 0 "not json").2.2.2.2.2.1 (by decide)).trans rfl,
   (claim10 NewNoRetryPolicy "/p" "" [] 0 "\x7b\"a\":\"b\"\x7d").2.2.2.2.2.2
     [("a", .str "b")] (by decide) rfl⟩

end Memu
